import Mathlib

/-!
Shallow embedding of the AP2 mandate protocol of this repository
(`src/ap2_protocol.py`, `utils/ap2_protocol.py`, `routes/ap2.py`).

Modelling conventions:
- Python `datetime` values are modelled as `Nat` seconds; `timedelta(hours=24)`
  is the constant 86400.
- Python floats in the trust computation are modelled as exact rationals `ℚ`
  (every comparison exercised below is far from any binary-rounding boundary).
- The `data` dict of a mandate is modelled by the structure `MandateData`,
  holding the keys the protocol reads (`intent_type`, `total_amount`, `amount`,
  `urgency`) plus an `extra` field standing for all other keys, so that payload
  mutations in unrelated keys are representable.  `dict.get(k, d)` becomes
  `Option.getD`.
- `hashlib.sha256(f"{secret_key}{message}").hexdigest()` with
  `message = json.dumps(payload, sort_keys=True)` is modelled symbolically:
  `json.dumps` with sorted keys is a deterministic injective serialization and
  SHA-256 is collision-free in the symbolic (random-oracle) model, so a digest
  is represented by its preimage, the pair of the secret key and the structured
  payload; two digests are equal exactly when key and payload agree.
- `uuid.uuid4()`, `secrets.token_hex(32)` and `datetime.now()` are environment
  inputs and appear as explicit parameters of the constructors.
-/

namespace AP2

/-- The `MandateType` enum (shared by both implementations). -/
inductive MandateType
  | intent
  | cart
  | payment
deriving DecidableEq, Repr

/-- The `.value` string of a `MandateType` member. -/
def MandateType.value : MandateType → String
  | .intent => "intent"
  | .cart => "cart"
  | .payment => "payment"

/-- The `MandateStatus` enum (shared by both implementations). -/
inductive MandateStatus
  | pending
  | approved
  | executed
  | cancelled
  | expired
deriving DecidableEq, Repr

/-- Model of the Python `data : Dict` payload, restricted to the keys the
protocol reads, plus `extra` for every other key. -/
structure MandateData where
  intent_type : Option String := none
  total_amount : Option ℚ := none
  amount : Option ℚ := none
  urgency : Option String := none
  extra : List (String × String) := []
deriving DecidableEq, Repr

/-- The 24-hour default expiry (`timedelta(hours=24)`), in seconds. -/
def hours24 : Nat := 24 * 3600

/-- The canonical payload signed by `EnhancedAP2Mandate._generate_cryptographic_proof`:
the dict `{id, type, user_id, data, created_at, nonce}` serialized with
`json.dumps(..., sort_keys=True)`. -/
structure SignPayload where
  id : String
  type : String
  user_id : String
  data : MandateData
  created_at : Nat
  nonce : String
deriving DecidableEq, Repr

/-- Symbolic model of `hashlib.sha256(f"{secret_key}{message}").hexdigest()`:
the digest is represented by its preimage (secret key and canonical payload);
see the header note on the symbolic hash model. -/
structure Digest where
  secret_key : String
  payload : SignPayload
deriving DecidableEq, Repr

/-- The `CryptographicProof` dataclass. -/
structure CryptographicProof where
  signature : Digest
  public_key_hash : String
  timestamp : Nat
  nonce : String
  algorithm : String := "RSA-OAEP-SHA256"
deriving DecidableEq, Repr

/-- The `TrustMetrics` dataclass. -/
structure TrustMetrics where
  user_trust_score : ℚ
  transaction_risk_score : ℚ
  auto_approval_threshold : ℚ
  requires_manual_review : Bool
deriving DecidableEq, Repr

/-- The `EnhancedAP2Mandate` object state (src/ap2_protocol.py). -/
structure EnhancedAP2Mandate where
  id : String
  type : MandateType
  user_id : String
  data : MandateData
  status : MandateStatus
  created_at : Nat
  expires_at : Nat
  executed_at : Option Nat
  nonce : String
  cryptographic_proof : CryptographicProof
  trust_metrics : TrustMetrics
deriving DecidableEq, Repr

/-- `EnhancedAP2Mandate._generate_cryptographic_proof`, as a function of the
fields it reads.  The `public_key_hash` (a truncated SHA-256 of
`f"pubkey_{user_id}"`, never read back by the protocol) is modelled by its
preimage string. -/
def generate_cryptographic_proof (id : String) (ty : MandateType) (user_id : String)
    (data : MandateData) (created_at : Nat) (nonce : String) : CryptographicProof :=
  let payload : SignPayload :=
    { id := id, type := ty.value, user_id := user_id, data := data
      created_at := created_at, nonce := nonce }
  let secret_key := "ap2_secret_" ++ user_id
  { signature := { secret_key := secret_key, payload := payload }
    public_key_hash := "pubkey_" ++ user_id
    timestamp := created_at
    nonce := nonce }

/-- `EnhancedAP2Mandate._calculate_trust_metrics`, as a function of the mandate
type and data.  The Python `else` arm (risk 30.0) is unreachable because
`MandateType` has exactly the three members matched. -/
def calculate_trust_metrics (ty : MandateType) (data : MandateData) : TrustMetrics :=
  let base_trust : ℚ := 85
  let risk_score : ℚ :=
    match ty with
    | .intent => 10
    | .cart => min 50 ((data.total_amount.getD 0) / 20)
    | .payment =>
        let amount := data.amount.getD 0
        let urgency := data.urgency.getD "normal"
        let r := min 80 (amount / 10)
        if urgency = "emergency" then r * (7 / 10) else r
  let auto_approval_threshold : ℚ := 80
  let final_score := base_trust - risk_score
  { user_trust_score := base_trust
    transaction_risk_score := risk_score
    auto_approval_threshold := auto_approval_threshold
    requires_manual_review := decide (final_score < auto_approval_threshold) }

/-- `EnhancedAP2Mandate.__init__`: id, nonce and the current time are
environment inputs passed explicitly. -/
def EnhancedAP2Mandate.new (ty : MandateType) (user_id : String) (data : MandateData)
    (id : String) (created_at : Nat) (nonce : String) : EnhancedAP2Mandate :=
  { id := id, type := ty, user_id := user_id, data := data
    status := .pending
    created_at := created_at
    expires_at := created_at + hours24
    executed_at := none
    nonce := nonce
    cryptographic_proof := generate_cryptographic_proof id ty user_id data created_at nonce
    trust_metrics := calculate_trust_metrics ty data }

/-- The digest recomputed from the current fields inside
`EnhancedAP2Mandate.verify_cryptographic_proof`. -/
def EnhancedAP2Mandate.expected_digest (m : EnhancedAP2Mandate) : Digest :=
  { secret_key := "ap2_secret_" ++ m.user_id
    payload :=
      { id := m.id, type := m.type.value, user_id := m.user_id, data := m.data
        created_at := m.created_at, nonce := m.nonce } }

/-- `EnhancedAP2Mandate.verify_cryptographic_proof`: recompute the signature
from the stored fields and compare with the stored one.  (The Python
`try/except` guard has no effect in the model: the recomputation is total.) -/
def EnhancedAP2Mandate.verify_cryptographic_proof (m : EnhancedAP2Mandate) : Bool :=
  decide (m.expected_digest = m.cryptographic_proof.signature)

/-- The `safe_intents` allow-list of `can_auto_approve` (and of the HTTP route
handler in routes/ap2.py). -/
def safe_intents : List String := ["savings_goal", "budget_alert", "spending_analysis"]

/-- `EnhancedAP2Mandate.can_auto_approve`. -/
def EnhancedAP2Mandate.can_auto_approve (m : EnhancedAP2Mandate) : Bool :=
  if !m.verify_cryptographic_proof then false
  else if m.trust_metrics.requires_manual_review then false
  else
    match m.type with
    | .intent => decide ((m.data.intent_type.getD "") ∈ safe_intents)
    | .cart => decide ((m.data.total_amount.getD 0) ≤ 50)
    | .payment =>
        decide ((m.data.amount.getD 0) ≤ 100) &&
          decide ((m.data.urgency.getD "normal") = "emergency")

/-- `EnhancedAP2Mandate.approve`: the Python method mutates `self` and returns
a Bool; the model returns the Bool paired with the updated mandate. -/
def EnhancedAP2Mandate.approve (m : EnhancedAP2Mandate) : Bool × EnhancedAP2Mandate :=
  if m.status ≠ .pending then (false, m)
  else if !m.verify_cryptographic_proof then (false, m)
  else (true, { m with status := .approved })

/-- `EnhancedAP2Mandate.execute`: guards only on `status == APPROVED`, then
sets `status = EXECUTED` and stamps `executed_at = datetime.now()`. -/
def EnhancedAP2Mandate.execute (m : EnhancedAP2Mandate) (now : Nat) :
    Bool × EnhancedAP2Mandate :=
  if m.status ≠ .approved then (false, m)
  else (true, { m with status := .executed, executed_at := some now })

/-- `EnhancedAP2Protocol.create_intent_mandate`: build the mandate, store it in
the registry, then auto-approve it when `can_auto_approve()` holds.  The Python
registry dict holds the same object that is returned, so the stored entry
reflects the approval. -/
def create_intent_mandate (reg : List EnhancedAP2Mandate) (user_id : String)
    (intent_data : MandateData) (id : String) (created_at : Nat) (nonce : String) :
    EnhancedAP2Mandate × List EnhancedAP2Mandate :=
  let mandate := EnhancedAP2Mandate.new .intent user_id intent_data id created_at nonce
  let mandate1 := if mandate.can_auto_approve then mandate.approve.2 else mandate
  (mandate1, reg ++ [mandate1])

/-- The per-mandate condition of `EnhancedAP2Protocol.cleanup_expired_mandates`. -/
def enhanced_expiry_pred (now : Nat) (m : EnhancedAP2Mandate) : Bool :=
  m.status == .pending && decide (m.expires_at < now)

/-- `EnhancedAP2Protocol.cleanup_expired_mandates`: mark every PENDING mandate
past its expiry as EXPIRED and return the count of mandates so marked. -/
def cleanup_expired_mandates (reg : List EnhancedAP2Mandate) (now : Nat) :
    Nat × List EnhancedAP2Mandate :=
  (reg.countP (enhanced_expiry_pred now),
   reg.map (fun m => if enhanced_expiry_pred now m then { m with status := .expired } else m))

namespace Mock

/-- The canonical payload signed by `AP2Mandate._generate_signature`
(utils/ap2_protocol.py): the dict `{id, type, user_id, data, created_at}` —
note there is no nonce field in the mock implementation. -/
structure SignPayload where
  id : String
  type : String
  user_id : String
  data : MandateData
  created_at : Nat
deriving DecidableEq, Repr

/-- Symbolic model of the HMAC-SHA256 hexdigest of the mock implementation,
represented by its preimage (key and canonical payload); see the header note. -/
structure Digest where
  secret_key : String
  payload : Mock.SignPayload
deriving DecidableEq, Repr

/-- The `AP2Mandate` object state (utils/ap2_protocol.py). -/
structure AP2Mandate where
  id : String
  type : MandateType
  user_id : String
  data : MandateData
  status : MandateStatus
  created_at : Nat
  expires_at : Nat
  executed_at : Option Nat
  signature : Mock.Digest
deriving DecidableEq, Repr

/-- `AP2Mandate._generate_signature`, as a function of the fields it reads:
HMAC-SHA256 with the fixed key `"ap2_secret_key_mock"` over the canonical
payload. -/
def generate_signature (id : String) (ty : MandateType) (user_id : String)
    (data : MandateData) (created_at : Nat) : Mock.Digest :=
  { secret_key := "ap2_secret_key_mock"
    payload :=
      { id := id, type := ty.value, user_id := user_id, data := data
        created_at := created_at } }

/-- `AP2Mandate.__init__`: id and the current time are environment inputs. -/
def AP2Mandate.new (ty : MandateType) (user_id : String) (data : MandateData)
    (id : String) (created_at : Nat) : AP2Mandate :=
  { id := id, type := ty, user_id := user_id, data := data
    status := .pending
    created_at := created_at
    expires_at := created_at + hours24
    executed_at := none
    signature := generate_signature id ty user_id data created_at }

/-- `AP2Mandate.verify_signature`: recompute and compare
(`hmac.compare_digest`). -/
def AP2Mandate.verify_signature (m : AP2Mandate) : Bool :=
  decide (generate_signature m.id m.type m.user_id m.data m.created_at = m.signature)

/-- `AP2Mandate.is_valid`: status in PENDING or APPROVED, `datetime.now()`
still before `expires_at`, and the signature verifies. -/
def AP2Mandate.is_valid (m : AP2Mandate) (now : Nat) : Bool :=
  (m.status == .pending || m.status == .approved) &&
    decide (now < m.expires_at) &&
    m.verify_signature

/-- `AP2Mandate.approve`: mutate-and-return-Bool modelled as a pair. -/
def AP2Mandate.approve (m : AP2Mandate) (now : Nat) : Bool × AP2Mandate :=
  if m.is_valid now && m.status == .pending then (true, { m with status := .approved })
  else (false, m)

/-- `AP2Mandate.execute`. -/
def AP2Mandate.execute (m : AP2Mandate) (now : Nat) : Bool × AP2Mandate :=
  if m.is_valid now && m.status == .approved then
    (true, { m with status := .executed, executed_at := some now })
  else (false, m)

/-- `AP2Mandate.cancel`. -/
def AP2Mandate.cancel (m : AP2Mandate) : Bool × AP2Mandate :=
  if m.status == .pending then (true, { m with status := .cancelled })
  else (false, m)

/-- The per-mandate condition of `AP2Protocol.cleanup_expired_mandates`:
past expiry and status not in {EXECUTED, CANCELLED}.  Note that an already
EXPIRED mandate satisfies this condition again. -/
def mock_expiry_pred (now : Nat) (m : AP2Mandate) : Bool :=
  decide (m.expires_at < now) && !(m.status == .executed || m.status == .cancelled)

/-- `AP2Protocol.cleanup_expired_mandates`: collect the ids matching the
condition, then mark each EXPIRED and count it. -/
def cleanup_expired_mandates (reg : List AP2Mandate) (now : Nat) :
    Nat × List AP2Mandate :=
  (reg.countP (mock_expiry_pred now),
   reg.map (fun m => if mock_expiry_pred now m then { m with status := .expired } else m))

end Mock

/-- The shape of the Flask response of the `create_intent_mandate` route
handler that the model tracks: the HTTP status code and the mandate included
in a success body. -/
structure RouteResponse where
  httpStatus : Nat
  mandate : Option Mock.AP2Mandate
deriving DecidableEq, Repr

/-- The `POST /api/ap2/mandates/intent` handler of routes/ap2.py: validate
`intent_type`, create the mandate through the mock protocol registry, approve
it directly when `intent_type` is on the route's `safe_intents` list, then
persist through `create_ap2_transaction`; `putOk` models whether that
persistence call succeeds.  On persistence failure the handler returns a 500
error — the registry (which already holds the mandate) is left as is. -/
def route_create_intent_mandate (registry : List Mock.AP2Mandate) (uid : String)
    (data : MandateData) (id : String) (now : Nat) (putOk : Bool) :
    RouteResponse × List Mock.AP2Mandate :=
  if data.intent_type.getD "" = "" then ({ httpStatus := 400, mandate := none }, registry)
  else
    let mandate := Mock.AP2Mandate.new .intent uid data id now
    let mandate1 :=
      if data.intent_type.getD "" ∈ safe_intents then (mandate.approve now).2 else mandate
    if putOk then ({ httpStatus := 200, mandate := some mandate1 }, registry ++ [mandate1])
    else ({ httpStatus := 500, mandate := none }, registry ++ [mandate1])

/-! Concrete mandates used by the per-claim counterexamples and witnesses. -/

/-- A payment mandate that is approved and then has its payload tampered with
(amount changed from 30 to 9999): the scenario of spec Scenario D. -/
def c1_tampered : EnhancedAP2Mandate :=
  { (EnhancedAP2Mandate.new .payment "alice"
      { amount := some 30, urgency := some "emergency" } "mandate-c1" 0 "nonce-c1").approve.2
    with data := { amount := some 9999, urgency := some "emergency" } }

/-- A mock mandate, already executed, used to exercise illegal transitions. -/
def c4_executed : Mock.AP2Mandate :=
  { Mock.AP2Mandate.new .payment "alice" { amount := some 10 } "mandate-c4" 0
    with status := .executed }

/-- An enhanced mandate, already executed, used to exercise illegal transitions. -/
def c4_executed_enhanced : EnhancedAP2Mandate :=
  { EnhancedAP2Mandate.new .payment "alice" { amount := some 10 } "mandate-c4e" 0 "nonce-c4"
    with status := .executed }

/-- A fresh cart mandate with total 40, which is auto-approvable. -/
def c3_cart : EnhancedAP2Mandate :=
  EnhancedAP2Mandate.new .cart "alice" { total_amount := some 40 } "mandate-c3" 0 "nonce-c3"

/-- A fresh payment mandate with amount 99 and urgency emergency. -/
def c5_m99 : EnhancedAP2Mandate :=
  EnhancedAP2Mandate.new .payment "alice"
    { amount := some 99, urgency := some "emergency" } "mandate-c5" 0 "nonce-c5"

/-- A fresh pending mock mandate created at time 0 (so it expires at 86400). -/
def c7_mock : Mock.AP2Mandate :=
  Mock.AP2Mandate.new .intent "bob" { intent_type := some "savings_goal" } "mandate-c7" 0

/-- A fresh pending enhanced mandate created at time 0 (so it expires at 86400). -/
def c7_enhanced : EnhancedAP2Mandate :=
  EnhancedAP2Mandate.new .intent "bob" { intent_type := some "savings_goal" }
    "mandate-c7e" 0 "nonce-c7e"

/-- A fresh pending mock mandate created at time 0, for the expiry-guard claim. -/
def c10_mock : Mock.AP2Mandate :=
  Mock.AP2Mandate.new .intent "bob" { intent_type := some "savings_goal" } "mandate-c10" 0

/-! Theorems for the claims. -/

/-- C1 counterexample: a mandate whose payload was tampered with between
approve and execute (its stored signature no longer verifies) is nevertheless
executed successfully by `EnhancedAP2Mandate.execute`, and its status moves to
EXECUTED — contradicting the claim that `execute()` succeeds only if the
integrity signature re-verifies and that such a failure leaves status at
Approved. -/
theorem c1_counterexample :
    c1_tampered.status = MandateStatus.approved ∧
    c1_tampered.verify_cryptographic_proof = false ∧
    (c1_tampered.execute 100).1 = true ∧
    (c1_tampered.execute 100).2.status = MandateStatus.executed ∧
    (c1_tampered.execute 100).2.executed_at = some 100 := by
  refine ⟨?_, ?_, ?_, ?_, ?_⟩ <;> decide

/-- C1 (amended): `EnhancedAP2Mandate.execute` succeeds exactly when
`status == Approved` — it does not re-verify the signature and does not check
expiry — while the mock `AP2Mandate.execute` succeeds exactly when
`status == Approved`, `now < expires_at` and the signature verifies.  In both
implementations success sets `status = Executed` and stamps `executed_at`, and
failure leaves every field unchanged. -/
theorem c1_execute_guards (m : EnhancedAP2Mandate) (mm : Mock.AP2Mandate) (now : Nat) :
    m.execute now =
      (if m.status = .approved then
        (true, { m with status := .executed, executed_at := some now })
       else (false, m)) ∧
    mm.execute now =
      (if mm.status = .approved ∧ now < mm.expires_at ∧ mm.verify_signature = true then
        (true, { mm with status := .executed, executed_at := some now })
       else (false, mm)) := by
  constructor
  · by_cases h : m.status = .approved <;> simp [EnhancedAP2Mandate.execute, h]
  · by_cases h1 : mm.status = .approved <;>
      by_cases h2 : now < mm.expires_at <;>
      by_cases h3 : mm.verify_signature = true <;>
      simp [Mock.AP2Mandate.execute, Mock.AP2Mandate.is_valid, h1, h2, h3]

/-- C4: any requested transition that is not in the lifecycle table — approve
or cancel on a non-Pending mandate, execute on a non-Approved one — returns
failure and leaves the mandate entirely unchanged, and no operation ever moves
a status back to Pending.  Stated for both implementations. -/
theorem c4_illegal_transitions_rejected (m : EnhancedAP2Mandate)
    (mm : Mock.AP2Mandate) (now : Nat) :
    (m.status ≠ .pending → m.approve = (false, m)) ∧
    (m.status ≠ .approved → m.execute now = (false, m)) ∧
    (m.approve.2.status = .pending → m.status = .pending) ∧
    ((m.execute now).2.status = .pending → m.status = .pending) ∧
    (mm.status ≠ .pending → mm.approve now = (false, mm)) ∧
    (mm.status ≠ .approved → mm.execute now = (false, mm)) ∧
    (mm.status ≠ .pending → mm.cancel = (false, mm)) ∧
    ((mm.approve now).2.status = .pending → mm.status = .pending) ∧
    ((mm.execute now).2.status = .pending → mm.status = .pending) ∧
    (mm.cancel.2.status = .pending → mm.status = .pending) := by
  refine ⟨?_, ?_, ?_, ?_, ?_, ?_, ?_, ?_, ?_, ?_⟩ <;> intro h
  · simp [EnhancedAP2Mandate.approve, h]
  · simp [EnhancedAP2Mandate.execute, h]
  · by_cases h1 : m.status = .pending
    · exact h1
    · simp [EnhancedAP2Mandate.approve, h1] at h
  · by_cases h1 : m.status = .approved
    · simp [EnhancedAP2Mandate.execute, h1] at h
    · simp [EnhancedAP2Mandate.execute, h1] at h
      exact h
  · simp [Mock.AP2Mandate.approve, h]
  · simp [Mock.AP2Mandate.execute, h]
  · simp [Mock.AP2Mandate.cancel, h]
  · by_cases h1 : mm.status = .pending
    · exact h1
    · simp [Mock.AP2Mandate.approve, h1] at h
  · by_cases h1 : mm.is_valid now && mm.status == .approved
    · simp [Mock.AP2Mandate.execute, h1] at h
    · simp [Mock.AP2Mandate.execute, h1] at h
      exact h
  · by_cases h1 : mm.status = .pending
    · exact h1
    · simp [Mock.AP2Mandate.cancel, h1] at h

/-- C4 witness: the illegal transitions, attempted on a concrete executed mock
mandate and a concrete executed enhanced mandate, are rejected without
mutation. -/
theorem c4_witness :
    c4_executed.approve 5 = (false, c4_executed) ∧
    c4_executed.cancel = (false, c4_executed) ∧
    c4_executed_enhanced.approve = (false, c4_executed_enhanced) :=
  ⟨(c4_illegal_transitions_rejected c4_executed_enhanced c4_executed 5).2.2.2.2.1 (by decide),
   (c4_illegal_transitions_rejected c4_executed_enhanced c4_executed 5).2.2.2.2.2.2.1 (by decide),
   (c4_illegal_transitions_rejected c4_executed_enhanced c4_executed 5).1 (by decide)⟩

/-- C9: the integrity signature of both implementations is computed over
`{id, type, user_id, data, created_at, nonce}` (no nonce in the mock) and never
over `expires_at`, so changing only `expires_at` leaves signature verification
unchanged — in particular a mandate that verified before still verifies after
its expiry is rewritten. -/
theorem c9_expires_at_not_signed (m : EnhancedAP2Mandate) (mm : Mock.AP2Mandate) (t : Nat) :
    ({ m with expires_at := t } : EnhancedAP2Mandate).verify_cryptographic_proof
        = m.verify_cryptographic_proof ∧
    ({ mm with expires_at := t } : Mock.AP2Mandate).verify_signature
        = mm.verify_signature :=
  ⟨rfl, rfl⟩

/-- C10: the mock `AP2Mandate.approve` refuses any mandate whose expiry has
passed (`now ≥ expires_at`), even one that is Pending with a valid signature,
because `is_valid` requires `now < expires_at`; the refusal mutates nothing. -/
theorem c10_expired_pending_never_approved (mm : Mock.AP2Mandate) (now : Nat)
    (h : mm.expires_at ≤ now) :
    mm.approve now = (false, mm) := by
  have hlt : ¬ now < mm.expires_at := Nat.not_lt.mpr h
  simp [Mock.AP2Mandate.approve, Mock.AP2Mandate.is_valid, hlt]

/-- C10 witness: a concrete pending, correctly signed mock mandate created at
time 0 cannot be approved at time 90000, past its 86400 expiry. -/
theorem c10_witness :
    c10_mock.status = MandateStatus.pending ∧
    c10_mock.verify_signature = true ∧
    c10_mock.approve 90000 = (false, c10_mock) :=
  ⟨by decide, by decide, c10_expired_pending_never_approved c10_mock 90000 (by decide)⟩

/-- Distinct `MandateType` members have distinct `.value` strings. -/
theorem MandateType.value_ne {a b : MandateType} (h : a ≠ b) : a.value ≠ b.value := by
  cases a <;> cases b <;> first | exact absurd rfl h | decide

/-- Characterization of `EnhancedAP2Mandate.can_auto_approve` as a conjunction
of the signature check, the manual-review gate and the kind-specific hard cap. -/
theorem can_auto_approve_iff (m : EnhancedAP2Mandate) :
    m.can_auto_approve = true ↔
      m.verify_cryptographic_proof = true ∧
      m.trust_metrics.requires_manual_review = false ∧
      ((m.type = .intent ∧ (m.data.intent_type.getD "") ∈ safe_intents) ∨
       (m.type = .cart ∧ m.data.total_amount.getD 0 ≤ 50) ∨
       (m.type = .payment ∧ m.data.amount.getD 0 ≤ 100 ∧
         m.data.urgency.getD "normal" = "emergency")) := by
  unfold EnhancedAP2Mandate.can_auto_approve
  cases hv : m.verify_cryptographic_proof <;>
    cases hr : m.trust_metrics.requires_manual_review <;>
      cases hty : m.type <;> simp

/-- C2: signature verification succeeds on the exact fields that were signed at
construction, and fails after a mutation of any single signed field (id, type,
user_id, payload data, created_at, nonce) that keeps the stored signature. -/
theorem c2_signature_roundtrip_and_tamper_detection (ty : MandateType) (uid : String)
    (d : MandateData) (id : String) (t : Nat) (n : String) :
    (EnhancedAP2Mandate.new ty uid d id t n).verify_cryptographic_proof = true ∧
    (∀ id2, id2 ≠ id →
      ({ EnhancedAP2Mandate.new ty uid d id t n with id := id2 }
        : EnhancedAP2Mandate).verify_cryptographic_proof = false) ∧
    (∀ ty2, ty2 ≠ ty →
      ({ EnhancedAP2Mandate.new ty uid d id t n with type := ty2 }
        : EnhancedAP2Mandate).verify_cryptographic_proof = false) ∧
    (∀ uid2, uid2 ≠ uid →
      ({ EnhancedAP2Mandate.new ty uid d id t n with user_id := uid2 }
        : EnhancedAP2Mandate).verify_cryptographic_proof = false) ∧
    (∀ d2, d2 ≠ d →
      ({ EnhancedAP2Mandate.new ty uid d id t n with data := d2 }
        : EnhancedAP2Mandate).verify_cryptographic_proof = false) ∧
    (∀ t2, t2 ≠ t →
      ({ EnhancedAP2Mandate.new ty uid d id t n with created_at := t2 }
        : EnhancedAP2Mandate).verify_cryptographic_proof = false) ∧
    (∀ n2, n2 ≠ n →
      ({ EnhancedAP2Mandate.new ty uid d id t n with nonce := n2 }
        : EnhancedAP2Mandate).verify_cryptographic_proof = false) := by
  refine ⟨?_, ?_, ?_, ?_, ?_, ?_, ?_⟩
  · simp [EnhancedAP2Mandate.verify_cryptographic_proof, EnhancedAP2Mandate.expected_digest,
      EnhancedAP2Mandate.new, generate_cryptographic_proof]
  · intro x hx
    simp [EnhancedAP2Mandate.verify_cryptographic_proof, EnhancedAP2Mandate.expected_digest,
      EnhancedAP2Mandate.new, generate_cryptographic_proof, Digest.mk.injEq,
      SignPayload.mk.injEq, hx]
  · intro x hx
    simp [EnhancedAP2Mandate.verify_cryptographic_proof, EnhancedAP2Mandate.expected_digest,
      EnhancedAP2Mandate.new, generate_cryptographic_proof, Digest.mk.injEq,
      SignPayload.mk.injEq, MandateType.value_ne hx]
  · intro x hx
    simp [EnhancedAP2Mandate.verify_cryptographic_proof, EnhancedAP2Mandate.expected_digest,
      EnhancedAP2Mandate.new, generate_cryptographic_proof, Digest.mk.injEq,
      SignPayload.mk.injEq, hx]
  · intro x hx
    simp [EnhancedAP2Mandate.verify_cryptographic_proof, EnhancedAP2Mandate.expected_digest,
      EnhancedAP2Mandate.new, generate_cryptographic_proof, Digest.mk.injEq,
      SignPayload.mk.injEq, hx]
  · intro x hx
    simp [EnhancedAP2Mandate.verify_cryptographic_proof, EnhancedAP2Mandate.expected_digest,
      EnhancedAP2Mandate.new, generate_cryptographic_proof, Digest.mk.injEq,
      SignPayload.mk.injEq, hx]
  · intro x hx
    simp [EnhancedAP2Mandate.verify_cryptographic_proof, EnhancedAP2Mandate.expected_digest,
      EnhancedAP2Mandate.new, generate_cryptographic_proof, Digest.mk.injEq,
      SignPayload.mk.injEq, hx]

/-- C2 witness: a concrete freshly signed mandate verifies; mutating its id or
its nonce makes verification fail. -/
theorem c2_witness :
    (EnhancedAP2Mandate.new .intent "alice" { intent_type := some "savings_goal" }
      "id-a" 0 "n-a").verify_cryptographic_proof = true ∧
    ({ EnhancedAP2Mandate.new .intent "alice" { intent_type := some "savings_goal" }
      "id-a" 0 "n-a" with id := "id-b" }
        : EnhancedAP2Mandate).verify_cryptographic_proof = false ∧
    ({ EnhancedAP2Mandate.new .intent "alice" { intent_type := some "savings_goal" }
      "id-a" 0 "n-a" with nonce := "n-b" }
        : EnhancedAP2Mandate).verify_cryptographic_proof = false :=
  ⟨(c2_signature_roundtrip_and_tamper_detection .intent "alice"
      { intent_type := some "savings_goal" } "id-a" 0 "n-a").1,
   (c2_signature_roundtrip_and_tamper_detection .intent "alice"
      { intent_type := some "savings_goal" } "id-a" 0 "n-a").2.1 "id-b" (by decide),
   (c2_signature_roundtrip_and_tamper_detection .intent "alice"
      { intent_type := some "savings_goal" } "id-a" 0 "n-a").2.2.2.2.2.2 "n-b" (by decide)⟩

/-- C3: `can_auto_approve` returns true only if the signature verifies, manual
review is not required, and the kind-specific hard cap holds (Intent: allow-
listed intent_type; Cart: total_amount at most 50; Payment: amount at most 100
with urgency emergency). -/
theorem c3_auto_approve_necessary_conditions (m : EnhancedAP2Mandate)
    (h : m.can_auto_approve = true) :
    m.verify_cryptographic_proof = true ∧
    m.trust_metrics.requires_manual_review = false ∧
    (m.type = .intent → (m.data.intent_type.getD "") ∈ safe_intents) ∧
    (m.type = .cart → m.data.total_amount.getD 0 ≤ 50) ∧
    (m.type = .payment → m.data.amount.getD 0 ≤ 100 ∧
      m.data.urgency.getD "normal" = "emergency") := by
  obtain ⟨hv, hr, hcap⟩ := (can_auto_approve_iff m).mp h
  refine ⟨hv, hr, ?_, ?_, ?_⟩ <;> intro hty <;>
    rcases hcap with ⟨h1, h2⟩ | ⟨h1, h2⟩ | ⟨h1, h2⟩ <;>
      first
        | exact h2
        | (rw [hty] at h1; simp at h1)

/-- C3 witness: a concrete fresh cart mandate with total 40 is auto-approvable,
and the necessary conditions extracted from the theorem hold for it. -/
theorem c3_witness :
    c3_cart.trust_metrics.requires_manual_review = false ∧
    c3_cart.data.total_amount.getD 0 ≤ 50 := by
  have h : c3_cart.can_auto_approve = true := by
    norm_num [c3_cart, EnhancedAP2Mandate.can_auto_approve, EnhancedAP2Mandate.new,
      calculate_trust_metrics, EnhancedAP2Mandate.verify_cryptographic_proof,
      EnhancedAP2Mandate.expected_digest, generate_cryptographic_proof, safe_intents]
  exact ⟨(c3_auto_approve_necessary_conditions c3_cart h).2.1,
    (c3_auto_approve_necessary_conditions c3_cart h).2.2.2.1 rfl⟩

/-- C5 counterexample: a freshly created Payment mandate with amount 99 and
urgency emergency — one unit below the ceiling, exactly the case the claim says
is always auto-approved — is not auto-approvable: its risk score is 6.93, so
the final score 78.07 falls below the 80 threshold and the mandate requires
manual review. -/
theorem c5_counterexample :
    c5_m99.data.amount = some 99 ∧
    c5_m99.data.urgency = some "emergency" ∧
    c5_m99.verify_cryptographic_proof = true ∧
    c5_m99.trust_metrics.requires_manual_review = true ∧
    c5_m99.can_auto_approve = false := by
  refine ⟨rfl, rfl, by decide, ?_, ?_⟩
  · norm_num [c5_m99, EnhancedAP2Mandate.new, calculate_trust_metrics]
  · norm_num [c5_m99, EnhancedAP2Mandate.can_auto_approve, EnhancedAP2Mandate.new,
      calculate_trust_metrics, EnhancedAP2Mandate.verify_cryptographic_proof,
      EnhancedAP2Mandate.expected_digest, generate_cryptographic_proof]

/-- C5 (amended): a Payment mandate created with amount 101 (one unit above the
ceiling) is never auto-approved, regardless of urgency; but one with amount 99
and urgency emergency is NOT auto-approved either, because its risk score
(99/10 scaled by 0.7, i.e. 6.93) exceeds the 5-point margin between the 85 base
trust and the 80 threshold, so the manual-review gate blocks it.  Emergency
payments are auto-approved only for small amounts, e.g. amount 70. -/
theorem c5_payment_ceiling (uid : String) (d : MandateData) (id : String)
    (t : Nat) (n : String) :
    (d.amount = some 101 →
      (EnhancedAP2Mandate.new .payment uid d id t n).can_auto_approve = false) ∧
    (d.amount = some 99 → d.urgency = some "emergency" →
      (EnhancedAP2Mandate.new .payment uid d id t n).can_auto_approve = false) ∧
    (d.amount = some 70 → d.urgency = some "emergency" →
      (EnhancedAP2Mandate.new .payment uid d id t n).can_auto_approve = true) := by
  refine ⟨?_, ?_, ?_⟩
  · intro ha
    apply Bool.eq_false_iff.mpr
    intro hcan
    obtain ⟨-, -, hcap⟩ := (can_auto_approve_iff _).mp hcan
    rcases hcap with ⟨h1, -⟩ | ⟨h1, -⟩ | ⟨-, h2, -⟩
    · simp [EnhancedAP2Mandate.new] at h1
    · simp [EnhancedAP2Mandate.new] at h1
    · rw [show (EnhancedAP2Mandate.new .payment uid d id t n).data = d from rfl, ha] at h2
      norm_num at h2
  · intro ha hu
    apply Bool.eq_false_iff.mpr
    intro hcan
    obtain ⟨-, hr, -⟩ := (can_auto_approve_iff _).mp hcan
    rw [show (EnhancedAP2Mandate.new .payment uid d id t n).trust_metrics
        = calculate_trust_metrics .payment d from rfl] at hr
    have : (calculate_trust_metrics .payment d).requires_manual_review = true := by
      norm_num [calculate_trust_metrics, ha, hu]
    rw [this] at hr
    cases hr
  · intro ha hu
    apply (can_auto_approve_iff _).mpr
    refine ⟨?_, ?_, Or.inr (Or.inr ⟨rfl, ?_, ?_⟩)⟩
    · simp [EnhancedAP2Mandate.verify_cryptographic_proof,
        EnhancedAP2Mandate.expected_digest, EnhancedAP2Mandate.new,
        generate_cryptographic_proof]
    · show (calculate_trust_metrics .payment d).requires_manual_review = false
      norm_num [calculate_trust_metrics, ha, hu]
    · show d.amount.getD 0 ≤ 100
      rw [ha]
      norm_num
    · show d.urgency.getD "normal" = "emergency"
      rw [hu]
      rfl

/-- C5 witness: concrete instances of the amended claim — a payment of 101 with
urgency emergency is rejected, and a payment of 70 with urgency emergency is
auto-approved. -/
theorem c5_witness :
    (EnhancedAP2Mandate.new .payment "alice"
      { amount := some 101, urgency := some "emergency" }
      "mandate-c5w" 0 "nonce-c5w").can_auto_approve = false ∧
    (EnhancedAP2Mandate.new .payment "alice"
      { amount := some 70, urgency := some "emergency" }
      "mandate-c5x" 0 "nonce-c5x").can_auto_approve = true :=
  ⟨(c5_payment_ceiling "alice" { amount := some 101, urgency := some "emergency" }
      "mandate-c5w" 0 "nonce-c5w").1 rfl,
   (c5_payment_ceiling "alice" { amount := some 70, urgency := some "emergency" }
      "mandate-c5x" 0 "nonce-c5x").2.2 rfl rfl⟩

/-- C6 counterexample: creating an Intent mandate with intent_type
savings_goal through `EnhancedAP2Protocol.create_intent_mandate` leaves it
PENDING, not APPROVED: the Intent risk score 10 gives a final score 75, below
the 80 threshold, so `requires_manual_review` is true and `can_auto_approve`
is false for every Intent mandate. -/
theorem c6_counterexample :
    (create_intent_mandate [] "alice" { intent_type := some "savings_goal" }
      "mandate-c6" 0 "nonce-c6").1.status = MandateStatus.pending := by
  norm_num [create_intent_mandate, EnhancedAP2Mandate.can_auto_approve,
    EnhancedAP2Mandate.new, calculate_trust_metrics,
    EnhancedAP2Mandate.verify_cryptographic_proof,
    EnhancedAP2Mandate.expected_digest, generate_cryptographic_proof]

/-- C6 (amended): creating a savings_goal Intent mandate through the enhanced
registry leaves its status PENDING (the manual-review gate blocks every Intent
auto-approval), while the HTTP route handler of routes/ap2.py — which approves
allow-listed intent types explicitly, bypassing `can_auto_approve` — returns
the mandate with status APPROVED. -/
theorem c6_intent_creation_status (ereg : List EnhancedAP2Mandate)
    (reg : List Mock.AP2Mandate) (uid : String) (d : MandateData)
    (id : String) (t : Nat) (n : String)
    (hd : d.intent_type = some "savings_goal") :
    (create_intent_mandate ereg uid d id t n).1.status = MandateStatus.pending ∧
    (route_create_intent_mandate reg uid d id t true).1.httpStatus = 200 ∧
    ((route_create_intent_mandate reg uid d id t true).1.mandate.map
      (fun x => x.status)) = some MandateStatus.approved := by
  have hrev : (calculate_trust_metrics .intent d).requires_manual_review = true := by
    norm_num [calculate_trust_metrics]
  have hcan : (EnhancedAP2Mandate.new .intent uid d id t n).can_auto_approve = false := by
    unfold EnhancedAP2Mandate.can_auto_approve
    rw [show (EnhancedAP2Mandate.new .intent uid d id t n).trust_metrics
        = calculate_trust_metrics .intent d from rfl, hrev]
    simp
  have hne : d.intent_type.getD "" = "savings_goal" := by rw [hd]; rfl
  have hnonempty : ¬ (d.intent_type.getD "" = "") := by rw [hne]; decide
  have hmem : d.intent_type.getD "" ∈ safe_intents := by rw [hne]; decide
  have happrove : ((Mock.AP2Mandate.new .intent uid d id t).approve t).2
      = { Mock.AP2Mandate.new .intent uid d id t with status := .approved } := by
    have hlt : t < t + hours24 := by simp [hours24]
    simp [Mock.AP2Mandate.approve, Mock.AP2Mandate.is_valid, hlt,
      Mock.AP2Mandate.verify_signature, Mock.AP2Mandate.new]
  refine ⟨?_, ?_, ?_⟩
  · simp only [create_intent_mandate, hcan, Bool.false_eq_true, if_false]
    rfl
  · simp [route_create_intent_mandate, hnonempty]
  · simp [route_create_intent_mandate, hnonempty, hmem, happrove]

/-- C6 witness: the amended claim at a concrete savings_goal creation — the
enhanced registry leaves it PENDING and the HTTP route returns it APPROVED. -/
theorem c6_witness :
    (create_intent_mandate [] "bob" { intent_type := some "savings_goal" }
      "mandate-c6w" 0 "nonce-c6w").1.status = MandateStatus.pending ∧
    ((route_create_intent_mandate [] "bob" { intent_type := some "savings_goal" }
      "mandate-c6w" 0 true).1.mandate.map (fun x => x.status))
        = some MandateStatus.approved :=
  ⟨(c6_intent_creation_status [] [] "bob" { intent_type := some "savings_goal" }
      "mandate-c6w" 0 "nonce-c6w" rfl).1,
   (c6_intent_creation_status [] [] "bob" { intent_type := some "savings_goal" }
      "mandate-c6w" 0 "nonce-c6w" rfl).2.2⟩

/-- C7 counterexample: the mock `AP2Protocol.cleanup_expired_mandates` re-marks
and re-counts mandates that are already EXPIRED (its condition only excludes
EXECUTED and CANCELLED), so running the sweep twice on a registry with one
expired pending mandate reports 1 both times — the second call does not
return 0. -/
theorem c7_counterexample :
    (Mock.cleanup_expired_mandates [c7_mock] 90000).1 = 1 ∧
    (Mock.cleanup_expired_mandates
      (Mock.cleanup_expired_mandates [c7_mock] 90000).2 90000).1 = 1 := by
  constructor <;> decide

/-- C7 (amended): the enhanced sweep (which only sweeps PENDING mandates) is
idempotent — a second run, given that no further mandate expired in between,
reports 0 — while the mock sweep reports the same count again on the second
run instead of 0. -/
theorem c7_cleanup_idempotence (reg : List EnhancedAP2Mandate)
    (mreg : List Mock.AP2Mandate) (now now2 : Nat)
    (h : ∀ m ∈ reg, m.expires_at < now2 → m.expires_at < now) :
    (cleanup_expired_mandates (cleanup_expired_mandates reg now).2 now2).1 = 0 ∧
    (Mock.cleanup_expired_mandates (Mock.cleanup_expired_mandates mreg now).2 now).1
      = (Mock.cleanup_expired_mandates mreg now).1 := by
  constructor
  · rw [cleanup_expired_mandates, cleanup_expired_mandates]
    refine List.countP_eq_zero.mpr ?_
    intro x hx
    rw [List.mem_map] at hx
    obtain ⟨y, hy, rfl⟩ := hx
    by_cases hp : enhanced_expiry_pred now y = true
    · rw [if_pos hp]
      simp [enhanced_expiry_pred]
    · rw [if_neg hp]
      intro hx2
      apply hp
      simp only [enhanced_expiry_pred, Bool.and_eq_true, beq_iff_eq,
        decide_eq_true_eq] at hx2 ⊢
      exact ⟨hx2.1, h y hy hx2.2⟩
  · rw [Mock.cleanup_expired_mandates, Mock.cleanup_expired_mandates]
    rw [List.countP_map]
    refine List.countP_congr ?_
    intro m hm
    by_cases hp : Mock.mock_expiry_pred now m = true
    · have : Mock.mock_expiry_pred now { m with status := .expired } = true := by
        simp only [Mock.mock_expiry_pred, Bool.and_eq_true, decide_eq_true_eq] at hp ⊢
        exact ⟨hp.1, by decide⟩
      simp [Function.comp, hp, this]
    · simp [Function.comp, hp]

/-- C7 witness: the amended claim at a concrete one-mandate registry — the
enhanced double sweep reports 0 the second time, the mock one reports its
first count again. -/
theorem c7_witness :
    (cleanup_expired_mandates (cleanup_expired_mandates [c7_enhanced] 90000).2 90000).1 = 0 ∧
    (Mock.cleanup_expired_mandates
        (Mock.cleanup_expired_mandates [c7_mock] 90000).2 90000).1
      = (Mock.cleanup_expired_mandates [c7_mock] 90000).1 :=
  ⟨(c7_cleanup_idempotence [c7_enhanced] [c7_mock] 90000 90000
      (fun _ _ hlt => hlt)).1,
   (c7_cleanup_idempotence [c7_enhanced] [c7_mock] 90000 90000
      (fun _ _ hlt => hlt)).2⟩

/-- C8 counterexample: when persistence fails (`putOk = false`) the intent
route handler reports a 500 error but the freshly built (and approved) mandate
remains in the in-memory registry: starting from an empty registry the final
registry is non-empty — no rollback happens, contradicting the claim that the
mandate is not retained. -/
theorem c8_counterexample :
    (route_create_intent_mandate [] "bob" { intent_type := some "savings_goal" }
      "mandate-c8" 0 false).1.httpStatus = 500 ∧
    (route_create_intent_mandate [] "bob" { intent_type := some "savings_goal" }
      "mandate-c8" 0 false).2 ≠ [] := by
  constructor <;> decide

/-- C8 (amended): if the persistence adapter's put fails during intent-mandate
creation, the handler aborts with a 500 error and returns no mandate in the
response, but the in-memory registry is NOT rolled back: it still grows by the
newly built mandate (the prior registry is an unchanged prefix). -/
theorem c8_persistence_failure_keeps_mandate (reg : List Mock.AP2Mandate)
    (uid : String) (d : MandateData) (id : String) (t : Nat)
    (hd : ¬ (d.intent_type.getD "" = "")) :
    (route_create_intent_mandate reg uid d id t false).1.httpStatus = 500 ∧
    (route_create_intent_mandate reg uid d id t false).1.mandate = none ∧
    (route_create_intent_mandate reg uid d id t false).2.length = reg.length + 1 ∧
    (route_create_intent_mandate reg uid d id t false).2.take reg.length = reg := by
  rw [route_create_intent_mandate]
  simp [hd, List.take_left]

/-- C8 witness: the amended claim at a concrete failing-persistence call on a
one-mandate registry. -/
theorem c8_witness :
    (route_create_intent_mandate [c7_mock] "bob"
      { intent_type := some "budget_alert" } "mandate-c8w" 0 false).1.httpStatus = 500 ∧
    (route_create_intent_mandate [c7_mock] "bob"
      { intent_type := some "budget_alert" } "mandate-c8w" 0 false).2.length = 2 :=
  ⟨(c8_persistence_failure_keeps_mandate [c7_mock] "bob"
      { intent_type := some "budget_alert" } "mandate-c8w" 0 (by decide)).1,
   (c8_persistence_failure_keeps_mandate [c7_mock] "bob"
      { intent_type := some "budget_alert" } "mandate-c8w" 0 (by decide)).2.2.1⟩

end AP2
